import Mathlib

/-!
Shallow embedding of `src/extension/indicator/ichimokuCloud.ts`:
the Ichimoku Cloud series calculator (`calc`) and the cloud renderer
(`draw` / `drawCloudPolygon`), together with theorems settling the
specification claims about them.

Conventions of the embedding:
* JS numbers carrying prices/pixels are modelled as `ℚ` (exact arithmetic).
* A JS array of records mutated in place is modelled as a `List` updated
  functionally (`modifyAt`); optional record fields are `Option ℚ`.
* The canvas context is modelled as the list of filled cloud polygons the
  renderer has emitted so far.
* `result[i]?.field` (optional chaining, out of range gives `undefined`)
  is modelled as `(result.get? i).bind field`.
-/

namespace Ichimoku

/-- One input bar: `high`, `low`, `close` (the fields of `KLineData` the
indicator reads). -/
structure KLineData where
  high : ℚ
  low : ℚ
  close : ℚ
  deriving DecidableEq, Repr, Inhabited

/-- The output record of the indicator (interface `IchimokuCloud` in the
source): five optional fields, all absent by default. -/
structure IchimokuCloud where
  tenkan : Option ℚ := none
  kijun : Option ℚ := none
  chikou : Option ℚ := none
  senkou1 : Option ℚ := none
  senkou2 : Option ℚ := none
  deriving DecidableEq, Repr, Inhabited

/-- Source `getHighest(dataList, endIndex, period)`: highest `high` over the window
ending at `endIndex`.  `startIndex = max(0, endIndex - period + 1)` is the
truncated subtraction `endIndex + 1 - period`; the loop runs `i` from
`startIndex + 1` to `endIndex`. -/
def getHighest (dataList : List KLineData) (endIndex period : ℕ) : ℚ :=
  let startIndex := endIndex + 1 - period
  (List.range' (startIndex + 1) (endIndex - startIndex)).foldl
    (fun highest i =>
      if (dataList.getD i default).high > highest then (dataList.getD i default).high
      else highest)
    (dataList.getD startIndex default).high

/-- Source `getLowest(dataList, endIndex, period)`: lowest `low` over the same
window. -/
def getLowest (dataList : List KLineData) (endIndex period : ℕ) : ℚ :=
  let startIndex := endIndex + 1 - period
  (List.range' (startIndex + 1) (endIndex - startIndex)).foldl
    (fun lowest i =>
      if (dataList.getD i default).low < lowest then (dataList.getD i default).low
      else lowest)
    (dataList.getD startIndex default).low

/-- In-place update `l[i] := f l[i]` of a JS array slot, as a functional
list update (no-op when `i` is out of range, which the calculator never
does on the indices it writes). -/
def modifyAt {α : Type} (l : List α) (i : ℕ) (f : α → α) : List α :=
  match l.get? i with
  | some a => l.set i (f a)
  | none => l

/-- The calculator's state: the (read-only) input array and the result
array being filled in.  Carrying `dataList` through the iteration lets the
frame property "the input is never mutated" be stated about the run. -/
structure CalcState where
  dataList : List KLineData
  result : List IchimokuCloud
  deriving DecidableEq, Repr

/-- The value `(getHighest(dataList, i, period) + getLowest(dataList, i, period)) / 2`
that each of the `const tenkan = ...`, `const kijun = ...`,
`const senkouB = ...` lines computes. -/
def midpointAt (dataList : List KLineData) (period i : ℕ) : ℚ :=
  (getHighest dataList i period + getLowest dataList i period) / 2

/-- The `// Tenkan-sen` block of the `forEach` body: if
`i >= tenkanPeriod - 1`, write the midpoint of the trailing window at
index `i`. -/
def stepTenkan (dataList : List KLineData) (tenkanPeriod : ℕ)
    (result : List IchimokuCloud) (i : ℕ) : List IchimokuCloud :=
  if tenkanPeriod - 1 ≤ i then
    modifyAt result i (fun r => { r with tenkan := some (midpointAt dataList tenkanPeriod i) })
  else result

/-- The `// Kijun-sen` block of the `forEach` body. -/
def stepKijun (dataList : List KLineData) (kijunPeriod : ℕ)
    (result : List IchimokuCloud) (i : ℕ) : List IchimokuCloud :=
  if kijunPeriod - 1 ≤ i then
    modifyAt result i (fun r => { r with kijun := some (midpointAt dataList kijunPeriod i) })
  else result

/-- The `// Senkou Span A` block: reads back `result[i].tenkan` and
`result[i].kijun` (as just written this iteration) and, if both defined,
writes their average at `i + displacement`. -/
def stepSenkouA (displacement : ℕ) (result : List IchimokuCloud) (i : ℕ) :
    List IchimokuCloud :=
  match (result.getD i default).tenkan, (result.getD i default).kijun with
  | some t, some k =>
      modifyAt result (i + displacement) (fun r => { r with senkou1 := some ((t + k) / 2) })
  | _, _ => result

/-- The `// Senkou Span B` block. -/
def stepSenkouB (dataList : List KLineData) (senkouBPeriod displacement : ℕ)
    (result : List IchimokuCloud) (i : ℕ) : List IchimokuCloud :=
  if senkouBPeriod - 1 ≤ i then
    modifyAt result (i + displacement)
      (fun r => { r with senkou2 := some (midpointAt dataList senkouBPeriod i) })
  else result

/-- The `// Chikou Span` block: `kLineData.close` is `dataList[i].close`. -/
def stepChikou (dataList : List KLineData) (displacement : ℕ)
    (result : List IchimokuCloud) (i : ℕ) : List IchimokuCloud :=
  if displacement ≤ i then
    modifyAt result (i - displacement) (fun r => { r with chikou := some (dataList.getD i default).close })
  else result

/-- One iteration of the `dataList.forEach((kLineData, i) => ...)` body of
`calc`, at input index `i`: the five blocks in source order. -/
def calcStep (tenkanPeriod kijunPeriod senkouBPeriod displacement : ℕ)
    (st : CalcState) (i : ℕ) : CalcState :=
  { st with
    result :=
      stepChikou st.dataList displacement
        (stepSenkouB st.dataList senkouBPeriod displacement
          (stepSenkouA displacement
            (stepKijun st.dataList kijunPeriod
              (stepTenkan st.dataList tenkanPeriod st.result i) i) i) i) i }

/-- The whole run of `calc`: result array pre-sized to
`dataList.length + displacement` all-absent records, then the `forEach`
over input indices in increasing order. -/
def calcRun (dataList : List KLineData)
    (tenkanPeriod kijunPeriod senkouBPeriod displacement : ℕ) : CalcState :=
  (List.range dataList.length).foldl
    (calcStep tenkanPeriod kijunPeriod senkouBPeriod displacement)
    { dataList := dataList
      result := List.replicate (dataList.length + displacement) {} }

/-- The source's `calc` (renamed: `calc` is a Lean keyword): the result
array produced by the run. -/
def calcCloud (dataList : List KLineData)
    (tenkanPeriod kijunPeriod senkouBPeriod displacement : ℕ) : List IchimokuCloud :=
  (calcRun dataList tenkanPeriod kijunPeriod senkouBPeriod displacement).result

/-! ## Renderer embedding -/

/-- A pixel coordinate (the source's `Coordinate`). -/
structure Coordinate where
  x : ℚ
  y : ℚ
  deriving DecidableEq, Repr, Inhabited

/-- The `bullishColor` constant of `draw`. -/
def bullishColor : String := "rgba(38, 166, 154, 0.3)"

/-- The `bearishColor` constant of `draw`. -/
def bearishColor : String := "rgba(239, 83, 80, 0.3)"

/-- One filled cloud polygon on the canvas: the upper-edge point list, the
lower-edge point list (traced in reverse when the path is built), and the
fill color. -/
structure CloudPoly where
  points1 : List Coordinate
  points2 : List Coordinate
  color : String
  deriving DecidableEq, Repr

/-- Source `drawCloudPolygon(ctx, points1, points2, color)`: returns unchanged if
`points1.length < 2`, otherwise fills the closed path (upper edge forward,
lower edge reversed) — modelled as appending the polygon to the canvas. -/
def drawCloudPolygon (ctx : List CloudPoly) (points1 points2 : List Coordinate)
    (color : String) : List CloudPoly :=
  if points1.length < 2 then ctx
  else ctx ++ [{ points1 := points1, points2 := points2, color := color }]

/-- The comparison `isBullish = senkou1Val >= senkou2Val` (line 180 of the source): ties
count as bullish. -/
def isBullishOf (senkou1Val senkou2Val : ℚ) : Bool :=
  decide (senkou1Val ≥ senkou2Val)

/-- The renderer's loop state: the two parallel edge point lists, the
current segment's bullish flag (`null` before any present pair), and the
canvas (polygons emitted so far). -/
structure DrawState where
  points1 : List Coordinate
  points2 : List Coordinate
  currentIsBullish : Option Bool
  ctx : List CloudPoly
  deriving DecidableEq, Repr

/-- The `currentIsBullish ? bullishColor : bearishColor` selection. -/
def colorOf (currentIsBullish : Option Bool) : String :=
  match currentIsBullish with
  | some true => bullishColor
  | _ => bearishColor

/-- One iteration of the renderer's scan at index `i`
(lines 172–194 of the source): an index where `senkou1` or `senkou2`
is absent (also out-of-range, per the optional chaining) leaves the state
untouched; a present pair may first flush the open segment on a sign
change (reseeding both edges with their last point) and then appends the
pixel pair. -/
def drawStep (result : List IchimokuCloud) (xAxis : ℕ → ℚ) (yAxis : ℚ → ℚ)
    (st : DrawState) (i : ℕ) : DrawState :=
  match (result.get? i).bind IchimokuCloud.senkou1,
        (result.get? i).bind IchimokuCloud.senkou2 with
  | some senkou1Val, some senkou2Val =>
    let x := xAxis i
    let y1 := yAxis senkou1Val
    let y2 := yAxis senkou2Val
    let isBullish := isBullishOf senkou1Val senkou2Val
    let st1 :=
      if st.currentIsBullish ≠ none ∧ st.currentIsBullish ≠ some isBullish then
        { st with
          ctx := drawCloudPolygon st.ctx st.points1 st.points2 (colorOf st.currentIsBullish)
          points1 :=
            if st.points1.length > 0 then [st.points1.getD (st.points1.length - 1) default] else []
          points2 :=
            if st.points2.length > 0 then [st.points2.getD (st.points2.length - 1) default] else [] }
      else st
    { st1 with
      points1 := st1.points1 ++ [{ x := x, y := y1 }]
      points2 := st1.points2 ++ [{ x := x, y := y2 }]
      currentIsBullish := some isBullish }
  | _, _ => st

/-- The scan of `draw` over the visible range `[fromIdx, toIdx)`, starting
from empty edge lists, `currentIsBullish = null`, and an empty canvas. -/
def drawScan (result : List IchimokuCloud) (fromIdx toIdx : ℕ)
    (xAxis : ℕ → ℚ) (yAxis : ℚ → ℚ) : DrawState :=
  (List.range' fromIdx (toIdx - fromIdx)).foldl (drawStep result xAxis yAxis)
    { points1 := [], points2 := [], currentIsBullish := none, ctx := [] }

/-- The renderer `draw`: after the scan, the remaining polygon is drawn when
`points1.length > 1 && currentIsBullish !== null`; the canvas (list of
filled polygons) is the renderer's observable output. -/
def draw (result : List IchimokuCloud) (fromIdx toIdx : ℕ)
    (xAxis : ℕ → ℚ) (yAxis : ℚ → ℚ) : List CloudPoly :=
  let st := drawScan result fromIdx toIdx xAxis yAxis
  if st.points1.length > 1 ∧ st.currentIsBullish ≠ none then
    drawCloudPolygon st.ctx st.points1 st.points2 (colorOf st.currentIsBullish)
  else st.ctx

/-! ## Spec-side notions used to state the claims -/

/-- Whether both spans are present at index `i` of the calculator output
(out-of-range counts as absent, matching the renderer's optional
chaining). -/
def presentB (result : List IchimokuCloud) (i : ℕ) : Bool :=
  ((result.get? i).bind IchimokuCloud.senkou1).isSome &&
    ((result.get? i).bind IchimokuCloud.senkou2).isSome

/-- The indices of `[fromIdx, toIdx)` at which both spans are present. -/
def presentIdx (result : List IchimokuCloud) (fromIdx toIdx : ℕ) : List ℕ :=
  (List.range' fromIdx (toIdx - fromIdx)).filter (presentB result)

/-- The x-pixels of the upper-edge points of a list of polygons: the
"index coverage" of the rendered segments, expressed through the pixel
mapping. -/
def polyXs (polys : List CloudPoly) : List ℚ :=
  (polys.map (fun p => p.points1.map Coordinate.x)).flatten

/-- The index window `[max(0, endIndex - period + 1), endIndex]`
(inclusive) that the spec's `highestHigh`/`lowestLow` range over. -/
def windowIdx (endIndex period : ℕ) : List ℕ :=
  List.range' (endIndex + 1 - period) (endIndex + 1 - (endIndex + 1 - period))

/-- The `high` values of the bars in the window. -/
def windowHighs (dataList : List KLineData) (endIndex period : ℕ) : List ℚ :=
  (windowIdx endIndex period).map (fun j => (dataList.getD j default).high)

/-- The `low` values of the bars in the window. -/
def windowLows (dataList : List KLineData) (endIndex period : ℕ) : List ℚ :=
  (windowIdx endIndex period).map (fun j => (dataList.getD j default).low)

/-- Midpoint of the maximum `high` and the minimum `low` over the spec's
window, stated through `List.max?`/`List.min?` (the spec's
`(max high + min low)/2`). -/
def specMidpoint (dataList : List KLineData) (endIndex period : ℕ) : Option ℚ :=
  match (windowHighs dataList endIndex period).max?,
        (windowLows dataList endIndex period).min? with
  | some h, some l => some ((h + l) / 2)
  | _, _ => none

/-- The calculator's state after processing input indices `0, …, n-1`. -/
def calcAux (dataList : List KLineData) (tp kp sp d n : ℕ) : CalcState :=
  (List.range n).foldl (calcStep tp kp sp d)
    { dataList := dataList, result := List.replicate (dataList.length + d) {} }

/-! ## The spec's error model for parameter validation -/

/-- The spec's §7 error taxonomy for the calculator. -/
inductive CalcError where
  | invalidParameter
  deriving DecidableEq, Repr

/-- Modelled from the spec: "`InvalidParameter` — any of the four
periods/displacement is non-positive or non-integer; fails fast before any
computation, surfaced to the caller".  The source `calc` (embedded as
`calcCloud`) contains no such check; this wrapper follows the spec's words
(parameters as integers, so that non-positive values are representable) and
is compared against the source behaviour. -/
def calculateValidated (dataList : List KLineData) (tp kp sp d : ℤ) :
    Except CalcError (List IchimokuCloud) :=
  if tp ≤ 0 ∨ kp ≤ 0 ∨ sp ≤ 0 ∨ d ≤ 0 then .error .invalidParameter
  else .ok (calcCloud dataList tp.toNat kp.toNat sp.toNat d.toNat)

/-- Number of present pairs among the processed indices. -/
def presentCount (result : List IchimokuCloud) (seen : List ℕ) : ℕ :=
  (seen.filter (presentB result)).length

/-- The x-pixels of the present pairs among the processed indices. -/
def presentXs (result : List IchimokuCloud) (xAxis : ℕ → ℚ) (seen : List ℕ) : List ℚ :=
  (seen.filter (presentB result)).map xAxis

/-- Invariant of the renderer's scan state after processing the index list
`seen`: the two edge lists run in lockstep, every emitted polygon is
well-formed, consecutive polygons share a boundary point, the open
segment continues the last polygon, and the accumulated x-pixels are
exactly those of the present pairs seen so far. -/
structure ScanInv (result : List IchimokuCloud) (xAxis : ℕ → ℚ) (seen : List ℕ)
    (st : DrawState) : Prop where
  len_eq : st.points1.length = st.points2.length
  init_of_none : st.currentIsBullish = none →
    st = { points1 := [], points2 := [], currentIsBullish := none, ctx := [] }
  flag_of_pos : 1 ≤ presentCount result seen → st.currentIsBullish ≠ none
  one_le_of_flag : st.currentIsBullish ≠ none → 1 ≤ st.points1.length
  two_le_of_two : 2 ≤ presentCount result seen → 2 ≤ st.points1.length
  ctx_nil_of_le_one : presentCount result seen ≤ 1 → st.ctx = []
  pts_le_count : st.points1.length ≤ presentCount result seen
  poly_shape : ∀ p ∈ st.ctx, 2 ≤ p.points1.length ∧ p.points1.length = p.points2.length
  chain : ∀ k p q, st.ctx[k]? = some p → st.ctx[k + 1]? = some q →
    q.points1.head? = p.points1.getLast? ∧ q.points2.head? = p.points2.getLast?
  link : ∀ p, st.ctx.getLast? = some p →
    st.points1.head? = p.points1.getLast? ∧ st.points2.head? = p.points2.getLast?
  coverage : ∀ a : ℚ,
    (a ∈ polyXs st.ctx ∨ a ∈ st.points1.map Coordinate.x) ↔
      a ∈ presentXs result xAxis seen

/-- A small concrete calculator output for exercising the renderer: two
bullish pairs followed by a bearish one. -/
def cloudResultW : List IchimokuCloud :=
  [{ senkou1 := some 2, senkou2 := some 1 },
   { senkou1 := some 2, senkou2 := some 1 },
   { senkou1 := some 0, senkou2 := some 3 }]

/-- The first polygon the renderer draws on `cloudResultW`. -/
def cloudPolyA : CloudPoly where
  points1 := [{ x := 0, y := 2 }, { x := 1, y := 2 }]
  points2 := [{ x := 0, y := 1 }, { x := 1, y := 1 }]
  color := bullishColor

/-- The second polygon the renderer draws on `cloudResultW`. -/
def cloudPolyB : CloudPoly where
  points1 := [{ x := 1, y := 2 }, { x := 2, y := 0 }]
  points2 := [{ x := 1, y := 1 }, { x := 2, y := 3 }]
  color := bearishColor

/-! ## Lemmas: list update -/

theorem length_modifyAt {α : Type} (l : List α) (i : ℕ) (f : α → α) :
    (modifyAt l i f).length = l.length := by
  unfold modifyAt
  cases h : l.get? i <;> simp

theorem getElem?_modifyAt {α : Type} (l : List α) (i j : ℕ) (f : α → α) :
    (modifyAt l i f)[j]? = if j = i then (l[j]?).map f else l[j]? := by
  unfold modifyAt
  cases h : l.get? i with
  | none =>
    rw [List.get?_eq_getElem?] at h
    by_cases hj : j = i
    · subst hj; simp [h]
    · simp [hj]
  | some a =>
    rw [List.get?_eq_getElem?] at h
    rw [List.getElem?_set']
    by_cases hj : j = i
    · subst hj; simp [h]
    · rw [if_neg (fun hh => hj hh.symm), if_neg hj]

theorem getD_modifyAt_self {α : Type} [Inhabited α] (l : List α) (i : ℕ) (f : α → α)
    (h : i < l.length) :
    (modifyAt l i f).getD i default = f (l.getD i default) := by
  simp [List.getD_eq_getElem?_getD, getElem?_modifyAt, List.getElem?_eq_getElem h]

theorem getD_modifyAt_ne {α : Type} [Inhabited α] (l : List α) {i j : ℕ} (f : α → α)
    (h : j ≠ i) :
    (modifyAt l i f).getD j default = l.getD j default := by
  simp [List.getD_eq_getElem?_getD, getElem?_modifyAt, h]

/-! ## Lemmas: the rolling extrema equal the spec's window extrema -/

theorem max_eq_ite (a b : ℚ) : max a b = if b > a then b else a := by
  rcases le_or_lt b a with h | h
  · rw [if_neg (not_lt.mpr h), max_eq_left h]
  · rw [if_pos h, max_eq_right h.le]

theorem min_eq_ite (a b : ℚ) : min a b = if b < a then b else a := by
  rcases le_or_lt a b with h | h
  · rw [if_neg (not_lt.mpr h), min_eq_left h]
  · rw [if_pos h, min_eq_right h.le]

theorem windowIdx_eq_cons (endIndex period : ℕ) (hp : 1 ≤ period) :
    windowIdx endIndex period =
      (endIndex + 1 - period) ::
        List.range' (endIndex + 1 - period + 1) (endIndex - (endIndex + 1 - period)) := by
  unfold windowIdx
  have h : endIndex + 1 - (endIndex + 1 - period) = (endIndex - (endIndex + 1 - period)) + 1 := by
    omega
  rw [h, List.range'_succ]

theorem max?_windowHighs (dataList : List KLineData) (endIndex period : ℕ)
    (hp : 1 ≤ period) :
    (windowHighs dataList endIndex period).max? =
      some (getHighest dataList endIndex period) := by
  unfold windowHighs getHighest
  rw [windowIdx_eq_cons _ _ hp, List.map_cons, List.max?_cons', List.foldl_map]
  congr 1
  dsimp only
  congr 1
  funext b a
  rw [sup_eq_max, max_eq_ite]

theorem min?_windowLows (dataList : List KLineData) (endIndex period : ℕ)
    (hp : 1 ≤ period) :
    (windowLows dataList endIndex period).min? =
      some (getLowest dataList endIndex period) := by
  unfold windowLows getLowest
  rw [windowIdx_eq_cons _ _ hp, List.map_cons, List.min?_cons', List.foldl_map]
  congr 1
  dsimp only
  congr 1
  funext b a
  rw [inf_eq_min, min_eq_ite]

theorem specMidpoint_eq (dataList : List KLineData) (endIndex period : ℕ)
    (hp : 1 ≤ period) :
    specMidpoint dataList endIndex period = some (midpointAt dataList period endIndex) := by
  rw [specMidpoint, max?_windowHighs _ _ _ hp, min?_windowLows _ _ _ hp]
  rfl

/-! ## Lemmas: effect of each block of the forEach body on one slot -/

theorem length_stepTenkan (dl : List KLineData) (p : ℕ) (r : List IchimokuCloud) (i : ℕ) :
    (stepTenkan dl p r i).length = r.length := by
  unfold stepTenkan; split <;> simp [length_modifyAt]

theorem length_stepKijun (dl : List KLineData) (p : ℕ) (r : List IchimokuCloud) (i : ℕ) :
    (stepKijun dl p r i).length = r.length := by
  unfold stepKijun; split <;> simp [length_modifyAt]

theorem length_stepSenkouA (d : ℕ) (r : List IchimokuCloud) (i : ℕ) :
    (stepSenkouA d r i).length = r.length := by
  unfold stepSenkouA; split <;> simp [length_modifyAt]

theorem length_stepSenkouB (dl : List KLineData) (p d : ℕ) (r : List IchimokuCloud) (i : ℕ) :
    (stepSenkouB dl p d r i).length = r.length := by
  unfold stepSenkouB; split <;> simp [length_modifyAt]

theorem length_stepChikou (dl : List KLineData) (d : ℕ) (r : List IchimokuCloud) (i : ℕ) :
    (stepChikou dl d r i).length = r.length := by
  unfold stepChikou; split <;> simp [length_modifyAt]

theorem stepTenkan_foreign {β : Type} (F : IchimokuCloud → β)
    (hF : ∀ r v, F { r with tenkan := v } = F r)
    (dl : List KLineData) (p : ℕ) (r : List IchimokuCloud) (i j : ℕ) :
    F ((stepTenkan dl p r i).getD j default) = F (r.getD j default) := by
  unfold stepTenkan
  by_cases hp : p - 1 ≤ i
  · rw [if_pos hp, List.getD_eq_getElem?_getD, List.getD_eq_getElem?_getD, getElem?_modifyAt]
    by_cases hj : j = i
    · rw [if_pos hj]
      cases h : r[j]? with
      | none => rfl
      | some a => exact hF a _
    · rw [if_neg hj]
  · rw [if_neg hp]

theorem stepKijun_foreign {β : Type} (F : IchimokuCloud → β)
    (hF : ∀ r v, F { r with kijun := v } = F r)
    (dl : List KLineData) (p : ℕ) (r : List IchimokuCloud) (i j : ℕ) :
    F ((stepKijun dl p r i).getD j default) = F (r.getD j default) := by
  unfold stepKijun
  by_cases hp : p - 1 ≤ i
  · rw [if_pos hp, List.getD_eq_getElem?_getD, List.getD_eq_getElem?_getD, getElem?_modifyAt]
    by_cases hj : j = i
    · rw [if_pos hj]
      cases h : r[j]? with
      | none => rfl
      | some a => exact hF a _
    · rw [if_neg hj]
  · rw [if_neg hp]

theorem stepSenkouA_foreign {β : Type} (F : IchimokuCloud → β)
    (hF : ∀ r v, F { r with senkou1 := v } = F r)
    (d : ℕ) (r : List IchimokuCloud) (i j : ℕ) :
    F ((stepSenkouA d r i).getD j default) = F (r.getD j default) := by
  unfold stepSenkouA
  cases ht : (r.getD i default).tenkan with
  | none => rfl
  | some t =>
    cases hk : (r.getD i default).kijun with
    | none => rfl
    | some k =>
      rw [List.getD_eq_getElem?_getD, List.getD_eq_getElem?_getD, getElem?_modifyAt]
      by_cases hj : j = i + d
      · rw [if_pos hj]
        cases h : r[j]? with
        | none => rfl
        | some a => exact hF a _
      · rw [if_neg hj]

theorem stepSenkouB_foreign {β : Type} (F : IchimokuCloud → β)
    (hF : ∀ r v, F { r with senkou2 := v } = F r)
    (dl : List KLineData) (p d : ℕ) (r : List IchimokuCloud) (i j : ℕ) :
    F ((stepSenkouB dl p d r i).getD j default) = F (r.getD j default) := by
  unfold stepSenkouB
  by_cases hp : p - 1 ≤ i
  · rw [if_pos hp, List.getD_eq_getElem?_getD, List.getD_eq_getElem?_getD, getElem?_modifyAt]
    by_cases hj : j = i + d
    · rw [if_pos hj]
      cases h : r[j]? with
      | none => rfl
      | some a => exact hF a _
    · rw [if_neg hj]
  · rw [if_neg hp]

theorem stepChikou_foreign {β : Type} (F : IchimokuCloud → β)
    (hF : ∀ r v, F { r with chikou := v } = F r)
    (dl : List KLineData) (d : ℕ) (r : List IchimokuCloud) (i j : ℕ) :
    F ((stepChikou dl d r i).getD j default) = F (r.getD j default) := by
  unfold stepChikou
  by_cases hd : d ≤ i
  · rw [if_pos hd, List.getD_eq_getElem?_getD, List.getD_eq_getElem?_getD,
      List.getD_eq_getElem?_getD, getElem?_modifyAt]
    by_cases hj : j = i - d
    · rw [if_pos hj]
      cases h : r[j]? with
      | none => rfl
      | some a => exact hF a _
    · rw [if_neg hj]
  · rw [if_neg hd]

theorem tenkan_stepTenkan (dl : List KLineData) (p : ℕ) (r : List IchimokuCloud) (i : ℕ)
    (hi : i < r.length) (j : ℕ) :
    ((stepTenkan dl p r i).getD j default).tenkan =
      if j = i ∧ p - 1 ≤ i then some (midpointAt dl p i) else (r.getD j default).tenkan := by
  unfold stepTenkan
  by_cases hp : p - 1 ≤ i
  · rw [if_pos hp]
    by_cases hj : j = i
    · subst hj
      rw [getD_modifyAt_self _ _ _ hi, if_pos ⟨rfl, hp⟩]
    · rw [getD_modifyAt_ne _ _ hj, if_neg (fun h => hj h.1)]
  · rw [if_neg hp, if_neg (fun h => hp h.2)]

theorem kijun_stepKijun (dl : List KLineData) (p : ℕ) (r : List IchimokuCloud) (i : ℕ)
    (hi : i < r.length) (j : ℕ) :
    ((stepKijun dl p r i).getD j default).kijun =
      if j = i ∧ p - 1 ≤ i then some (midpointAt dl p i) else (r.getD j default).kijun := by
  unfold stepKijun
  by_cases hp : p - 1 ≤ i
  · rw [if_pos hp]
    by_cases hj : j = i
    · subst hj
      rw [getD_modifyAt_self _ _ _ hi, if_pos ⟨rfl, hp⟩]
    · rw [getD_modifyAt_ne _ _ hj, if_neg (fun h => hj h.1)]
  · rw [if_neg hp, if_neg (fun h => hp h.2)]

theorem senkou1_stepSenkouA (d : ℕ) (r : List IchimokuCloud) (i : ℕ)
    (hi : i + d < r.length) (j : ℕ) :
    ((stepSenkouA d r i).getD j default).senkou1 =
      match (r.getD i default).tenkan, (r.getD i default).kijun with
      | some t, some k =>
          if j = i + d then some ((t + k) / 2) else (r.getD j default).senkou1
      | _, _ => (r.getD j default).senkou1 := by
  unfold stepSenkouA
  cases ht : (r.getD i default).tenkan with
  | none => rfl
  | some t =>
    cases hk : (r.getD i default).kijun with
    | none => rfl
    | some k =>
      by_cases hj : j = i + d
      · subst hj
        rw [getD_modifyAt_self _ _ _ hi]
        simp
      · rw [getD_modifyAt_ne _ _ hj]
        simp [hj]

theorem senkou2_stepSenkouB (dl : List KLineData) (p d : ℕ) (r : List IchimokuCloud) (i : ℕ)
    (hi : i + d < r.length) (j : ℕ) :
    ((stepSenkouB dl p d r i).getD j default).senkou2 =
      if j = i + d ∧ p - 1 ≤ i then some (midpointAt dl p i) else (r.getD j default).senkou2 := by
  unfold stepSenkouB
  by_cases hp : p - 1 ≤ i
  · rw [if_pos hp]
    by_cases hj : j = i + d
    · subst hj
      rw [getD_modifyAt_self _ _ _ hi, if_pos ⟨rfl, hp⟩]
    · rw [getD_modifyAt_ne _ _ hj, if_neg (fun h => hj h.1)]
  · rw [if_neg hp, if_neg (fun h => hp h.2)]

theorem chikou_stepChikou (dl : List KLineData) (d : ℕ) (r : List IchimokuCloud) (i : ℕ)
    (hi : i - d < r.length) (j : ℕ) :
    ((stepChikou dl d r i).getD j default).chikou =
      if j = i - d ∧ d ≤ i then some (dl.getD i default).close
      else (r.getD j default).chikou := by
  unfold stepChikou
  by_cases hd : d ≤ i
  · rw [if_pos hd]
    by_cases hj : j = i - d
    · subst hj
      rw [getD_modifyAt_self _ _ _ hi, if_pos ⟨rfl, hd⟩]
    · rw [getD_modifyAt_ne _ _ hj, if_neg (fun h => hj h.1)]
  · rw [if_neg hd, if_neg (fun h => hd h.2)]

/-! ## Lemmas: the whole forEach, by induction on the processed prefix -/

theorem calcRun_eq_calcAux (dataList : List KLineData) (tp kp sp d : ℕ) :
    calcRun dataList tp kp sp d = calcAux dataList tp kp sp d dataList.length := rfl

theorem calcAux_succ (dataList : List KLineData) (tp kp sp d n : ℕ) :
    calcAux dataList tp kp sp d (n + 1) =
      calcStep tp kp sp d (calcAux dataList tp kp sp d n) n := by
  unfold calcAux
  rw [List.range_succ, List.foldl_append, List.foldl_cons, List.foldl_nil]

theorem calcStep_dataList (tp kp sp d : ℕ) (st : CalcState) (i : ℕ) :
    (calcStep tp kp sp d st i).dataList = st.dataList := rfl

theorem calcStep_result (tp kp sp d : ℕ) (st : CalcState) (i : ℕ) :
    (calcStep tp kp sp d st i).result =
      stepChikou st.dataList d
        (stepSenkouB st.dataList sp d
          (stepSenkouA d
            (stepKijun st.dataList kp
              (stepTenkan st.dataList tp st.result i) i) i) i) i := rfl

theorem calcAux_dataList (dataList : List KLineData) (tp kp sp d n : ℕ) :
    (calcAux dataList tp kp sp d n).dataList = dataList := by
  induction n with
  | zero => rfl
  | succ n ih => rw [calcAux_succ, calcStep_dataList, ih]

theorem calcAux_length (dataList : List KLineData) (tp kp sp d n : ℕ) :
    (calcAux dataList tp kp sp d n).result.length = dataList.length + d := by
  induction n with
  | zero => simp [calcAux]
  | succ n ih =>
    rw [calcAux_succ, calcStep_result, length_stepChikou, length_stepSenkouB,
      length_stepSenkouA, length_stepKijun, length_stepTenkan, ih]

theorem getD_replicate_empty (n j : ℕ) :
    ((List.replicate n ({} : IchimokuCloud)).getD j default) = {} := by
  rw [List.getD_eq_getElem?_getD, List.getElem?_replicate]
  split <;> rfl

theorem calcAux_tenkan (dataList : List KLineData) (tp kp sp d : ℕ) :
    ∀ n, n ≤ dataList.length → ∀ j,
      ((calcAux dataList tp kp sp d n).result.getD j default).tenkan =
        if j < n ∧ tp - 1 ≤ j then some (midpointAt dataList tp j) else none := by
  intro n
  induction n with
  | zero =>
    intro _ j
    rw [show (calcAux dataList tp kp sp d 0).result =
        List.replicate (dataList.length + d) {} from rfl,
      getD_replicate_empty, if_neg (fun h => Nat.not_lt_zero j h.1)]
  | succ n ih =>
    intro hn j
    have hn' : n ≤ dataList.length := Nat.le_of_succ_le hn
    have hbound : n < (calcAux dataList tp kp sp d n).result.length := by
      rw [calcAux_length]; omega
    rw [calcAux_succ, calcStep_result, calcAux_dataList,
      stepChikou_foreign IchimokuCloud.tenkan (fun r v => rfl),
      stepSenkouB_foreign IchimokuCloud.tenkan (fun r v => rfl),
      stepSenkouA_foreign IchimokuCloud.tenkan (fun r v => rfl),
      stepKijun_foreign IchimokuCloud.tenkan (fun r v => rfl),
      tenkan_stepTenkan _ _ _ _ hbound, ih hn' j]
    by_cases hj : j = n
    · subst hj
      by_cases htp : tp - 1 ≤ j
      · simp [htp]
      · simp [htp]
    · rw [if_neg (fun h => hj h.1)]
      split_ifs with h1 h2 <;> first | rfl | omega

theorem calcAux_kijun (dataList : List KLineData) (tp kp sp d : ℕ) :
    ∀ n, n ≤ dataList.length → ∀ j,
      ((calcAux dataList tp kp sp d n).result.getD j default).kijun =
        if j < n ∧ kp - 1 ≤ j then some (midpointAt dataList kp j) else none := by
  intro n
  induction n with
  | zero =>
    intro _ j
    rw [show (calcAux dataList tp kp sp d 0).result =
        List.replicate (dataList.length + d) {} from rfl,
      getD_replicate_empty, if_neg (fun h => Nat.not_lt_zero j h.1)]
  | succ n ih =>
    intro hn j
    have hn' : n ≤ dataList.length := Nat.le_of_succ_le hn
    have hbound : n < (calcAux dataList tp kp sp d n).result.length := by
      rw [calcAux_length]; omega
    rw [calcAux_succ, calcStep_result, calcAux_dataList,
      stepChikou_foreign IchimokuCloud.kijun (fun r v => rfl),
      stepSenkouB_foreign IchimokuCloud.kijun (fun r v => rfl),
      stepSenkouA_foreign IchimokuCloud.kijun (fun r v => rfl),
      kijun_stepKijun _ _ _ _ (by rw [length_stepTenkan]; exact hbound),
      stepTenkan_foreign IchimokuCloud.kijun (fun r v => rfl), ih hn' j]
    by_cases hj : j = n
    · subst hj
      by_cases hkp : kp - 1 ≤ j
      · simp [hkp]
      · simp [hkp]
    · rw [if_neg (fun h => hj h.1)]
      split_ifs with h1 h2 <;> first | rfl | omega

theorem calcAux_senkou2 (dataList : List KLineData) (tp kp sp d : ℕ) :
    ∀ n, n ≤ dataList.length → ∀ j,
      ((calcAux dataList tp kp sp d n).result.getD j default).senkou2 =
        if d ≤ j ∧ j - d < n ∧ sp - 1 ≤ j - d then some (midpointAt dataList sp (j - d))
        else none := by
  intro n
  induction n with
  | zero =>
    intro _ j
    rw [show (calcAux dataList tp kp sp d 0).result =
        List.replicate (dataList.length + d) {} from rfl,
      getD_replicate_empty, if_neg (fun h => Nat.not_lt_zero (j - d) h.2.1)]
  | succ n ih =>
    intro hn j
    have hn' : n ≤ dataList.length := Nat.le_of_succ_le hn
    have hb : n + d <
        (stepSenkouA d (stepKijun dataList kp
          (stepTenkan dataList tp (calcAux dataList tp kp sp d n).result n) n) n).length := by
      rw [length_stepSenkouA, length_stepKijun, length_stepTenkan, calcAux_length]; omega
    rw [calcAux_succ, calcStep_result, calcAux_dataList,
      stepChikou_foreign IchimokuCloud.senkou2 (fun r v => rfl),
      senkou2_stepSenkouB _ _ _ _ _ hb,
      stepSenkouA_foreign IchimokuCloud.senkou2 (fun r v => rfl),
      stepKijun_foreign IchimokuCloud.senkou2 (fun r v => rfl),
      stepTenkan_foreign IchimokuCloud.senkou2 (fun r v => rfl), ih hn' j]
    by_cases hj : j = n + d
    · subst hj
      by_cases hsp : sp - 1 ≤ n
      · simp [hsp, Nat.add_sub_cancel]
      · simp [hsp, Nat.add_sub_cancel]
    · rw [if_neg (fun h => hj h.1)]
      split_ifs with h1 h2 <;> first | rfl | omega

theorem calcAux_chikou (dataList : List KLineData) (tp kp sp d : ℕ) :
    ∀ n, n ≤ dataList.length → ∀ j,
      ((calcAux dataList tp kp sp d n).result.getD j default).chikou =
        if j + d < n then some ((dataList.getD (j + d) default).close) else none := by
  intro n
  induction n with
  | zero =>
    intro _ j
    rw [show (calcAux dataList tp kp sp d 0).result =
        List.replicate (dataList.length + d) {} from rfl,
      getD_replicate_empty, if_neg (Nat.not_lt_zero (j + d))]
  | succ n ih =>
    intro hn j
    have hn' : n ≤ dataList.length := Nat.le_of_succ_le hn
    have hb : n - d <
        (stepSenkouB dataList sp d (stepSenkouA d (stepKijun dataList kp
          (stepTenkan dataList tp (calcAux dataList tp kp sp d n).result n) n) n) n).length := by
      rw [length_stepSenkouB, length_stepSenkouA, length_stepKijun, length_stepTenkan,
        calcAux_length]
      omega
    rw [calcAux_succ, calcStep_result, calcAux_dataList,
      chikou_stepChikou _ _ _ _ hb,
      stepSenkouB_foreign IchimokuCloud.chikou (fun r v => rfl),
      stepSenkouA_foreign IchimokuCloud.chikou (fun r v => rfl),
      stepKijun_foreign IchimokuCloud.chikou (fun r v => rfl),
      stepTenkan_foreign IchimokuCloud.chikou (fun r v => rfl), ih hn' j]
    by_cases hj : j = n - d ∧ d ≤ n
    · have hjd : j + d = n := by omega
      rw [if_pos hj, if_pos (by omega), hjd]
    · rw [if_neg hj]
      split_ifs with h1 h2 <;> first | rfl | omega

theorem calcAux_senkou1 (dataList : List KLineData) (tp kp sp d : ℕ) :
    ∀ n, n ≤ dataList.length → ∀ j,
      ((calcAux dataList tp kp sp d n).result.getD j default).senkou1 =
        if d ≤ j ∧ j - d < n ∧ tp - 1 ≤ j - d ∧ kp - 1 ≤ j - d then
          some ((midpointAt dataList tp (j - d) + midpointAt dataList kp (j - d)) / 2)
        else none := by
  intro n
  induction n with
  | zero =>
    intro _ j
    rw [show (calcAux dataList tp kp sp d 0).result =
        List.replicate (dataList.length + d) {} from rfl,
      getD_replicate_empty, if_neg (fun h => Nat.not_lt_zero (j - d) h.2.1)]
  | succ n ih =>
    intro hn j
    have hn' : n ≤ dataList.length := Nat.le_of_succ_le hn
    have hb0 : n < (calcAux dataList tp kp sp d n).result.length := by
      rw [calcAux_length]; omega
    have hb1 : n < (stepTenkan dataList tp (calcAux dataList tp kp sp d n).result n).length := by
      rw [length_stepTenkan]; exact hb0
    have hb2 : n + d < (stepKijun dataList kp
        (stepTenkan dataList tp (calcAux dataList tp kp sp d n).result n) n).length := by
      rw [length_stepKijun, length_stepTenkan, calcAux_length]; omega
    have hT2 : ((stepKijun dataList kp
        (stepTenkan dataList tp (calcAux dataList tp kp sp d n).result n) n).getD n
          default).tenkan =
        if tp - 1 ≤ n then some (midpointAt dataList tp n) else none := by
      rw [stepKijun_foreign IchimokuCloud.tenkan (fun r v => rfl),
        tenkan_stepTenkan _ _ _ _ hb0, calcAux_tenkan dataList tp kp sp d n hn' n]
      simp
    have hK2 : ((stepKijun dataList kp
        (stepTenkan dataList tp (calcAux dataList tp kp sp d n).result n) n).getD n
          default).kijun =
        if kp - 1 ≤ n then some (midpointAt dataList kp n) else none := by
      rw [kijun_stepKijun _ _ _ _ hb1,
        stepTenkan_foreign IchimokuCloud.kijun (fun r v => rfl),
        calcAux_kijun dataList tp kp sp d n hn' n]
      simp
    have hS : ∀ m, ((stepKijun dataList kp
        (stepTenkan dataList tp (calcAux dataList tp kp sp d n).result n) n).getD m
          default).senkou1 =
        if d ≤ m ∧ m - d < n ∧ tp - 1 ≤ m - d ∧ kp - 1 ≤ m - d then
          some ((midpointAt dataList tp (m - d) + midpointAt dataList kp (m - d)) / 2)
        else none := by
      intro m
      rw [stepKijun_foreign IchimokuCloud.senkou1 (fun r v => rfl),
        stepTenkan_foreign IchimokuCloud.senkou1 (fun r v => rfl), ih hn' m]
    rw [calcAux_succ, calcStep_result, calcAux_dataList,
      stepChikou_foreign IchimokuCloud.senkou1 (fun r v => rfl),
      stepSenkouB_foreign IchimokuCloud.senkou1 (fun r v => rfl),
      senkou1_stepSenkouA _ _ _ hb2, hT2, hK2]
    by_cases htp : tp - 1 ≤ n
    · by_cases hkp : kp - 1 ≤ n
      · rw [if_pos htp, if_pos hkp]
        show (if j = n + d then _ else _) = _
        by_cases hj : j = n + d
        · subst hj
          rw [if_pos rfl, if_pos (by omega)]
          rw [Nat.add_sub_cancel]
        · rw [if_neg hj, hS j]
          split_ifs with h1 h2 <;> first | rfl | omega
      · rw [if_pos htp, if_neg hkp]
        show ((stepKijun dataList kp
          (stepTenkan dataList tp (calcAux dataList tp kp sp d n).result n) n).getD j
            default).senkou1 = _
        rw [hS j]
        split_ifs with h1 h2 <;> first | rfl | omega
    · rw [if_neg htp]
      show ((stepKijun dataList kp
        (stepTenkan dataList tp (calcAux dataList tp kp sp d n).result n) n).getD j
          default).senkou1 = _
      rw [hS j]
      split_ifs with h1 h2 <;> first | rfl | omega

/-! ## Calculator claims -/

/-- C1, counterexample: a call with the non-positive parameter
`displacement = 0` (and default periods 9/26/52) does not fail: the source
`calc` returns a normal result — here the single record
`{ chikou := close }` — while the spec-modelled validated calculator
rejects the same parameters with `InvalidParameter`. -/
theorem C1_counterexample :
    calcCloud [{ high := 10, low := 5, close := 7 }] 9 26 52 0 =
      [{ chikou := some 7 }] ∧
    calculateValidated [{ high := 10, low := 5, close := 7 }] 9 26 52 0 =
      .error .invalidParameter := by
  constructor
  · rfl
  · rfl

/-- C1 (amended): the source `calc` performs no parameter validation at
all: with the non-positive parameter `displacement = 0` it still returns a
normally-shaped result of length `L + 0 = L` instead of failing fast,
whereas the spec-side validated calculator returns `InvalidParameter`. -/
theorem C1_no_validation (dataList : List KLineData) (tp kp sp : ℕ)
    (htp : 1 ≤ tp) (hkp : 1 ≤ kp) (hsp : 1 ≤ sp) :
    (calcCloud dataList tp kp sp 0).length = dataList.length ∧
    calculateValidated dataList (tp : ℤ) (kp : ℤ) (sp : ℤ) 0 = .error .invalidParameter := by
  constructor
  · show (calcAux dataList tp kp sp 0 dataList.length).result.length = _
    rw [calcAux_length]
    omega
  · unfold calculateValidated
    rw [if_pos (Or.inr (Or.inr (Or.inr le_rfl)))]

/-- Witness for C1 (amended) at a concrete input. -/
theorem C1_witness :
    1 ≤ 9 ∧ 1 ≤ 26 ∧ 1 ≤ 52 ∧
    ((calcCloud [{ high := 10, low := 5, close := 7 }] 9 26 52 0).length = 1 ∧
      calculateValidated [{ high := 10, low := 5, close := 7 }] 9 26 52 0 =
        .error .invalidParameter) :=
  ⟨by decide, by decide, by decide,
    C1_no_validation [{ high := 10, low := 5, close := 7 }] 9 26 52
      (by decide) (by decide) (by decide)⟩

/-- C3: for valid parameters and `i < len(bars)`, `tenkan[i]` is present
iff `i ≥ tenkanPeriod - 1` and then equals the midpoint of the maximum
high and minimum low over the trailing window (same for `kijun` with
`kijunPeriod`); at output indices `≥ len(bars)` both are absent. -/
theorem C3_tenkan_kijun_window (dataList : List KLineData) (tp kp sp d : ℕ)
    (htp : 1 ≤ tp) (hkp : 1 ≤ kp) (hsp : 1 ≤ sp) (hd : 1 ≤ d) :
    (∀ i, i < dataList.length →
      ((((calcCloud dataList tp kp sp d).getD i default).tenkan.isSome = true ↔
          tp - 1 ≤ i) ∧
        (tp - 1 ≤ i →
          ((calcCloud dataList tp kp sp d).getD i default).tenkan =
            specMidpoint dataList i tp)) ∧
      ((((calcCloud dataList tp kp sp d).getD i default).kijun.isSome = true ↔
          kp - 1 ≤ i) ∧
        (kp - 1 ≤ i →
          ((calcCloud dataList tp kp sp d).getD i default).kijun =
            specMidpoint dataList i kp))) ∧
    (∀ j, dataList.length ≤ j →
      ((calcCloud dataList tp kp sp d).getD j default).tenkan = none ∧
      ((calcCloud dataList tp kp sp d).getD j default).kijun = none) := by
  have hT : ∀ j, ((calcCloud dataList tp kp sp d).getD j default).tenkan =
      if j < dataList.length ∧ tp - 1 ≤ j then some (midpointAt dataList tp j) else none :=
    calcAux_tenkan dataList tp kp sp d dataList.length le_rfl
  have hK : ∀ j, ((calcCloud dataList tp kp sp d).getD j default).kijun =
      if j < dataList.length ∧ kp - 1 ≤ j then some (midpointAt dataList kp j) else none :=
    calcAux_kijun dataList tp kp sp d dataList.length le_rfl
  constructor
  · intro i hi
    refine ⟨⟨?_, ?_⟩, ⟨?_, ?_⟩⟩
    · rw [hT i]
      by_cases h : tp - 1 ≤ i <;> simp [h, hi]
    · intro h
      rw [hT i, if_pos ⟨hi, h⟩, specMidpoint_eq _ _ _ htp]
    · rw [hK i]
      by_cases h : kp - 1 ≤ i <;> simp [h, hi]
    · intro h
      rw [hK i, if_pos ⟨hi, h⟩, specMidpoint_eq _ _ _ hkp]
  · intro j hj
    constructor
    · rw [hT j, if_neg (fun h => absurd h.1 (not_lt.mpr hj))]
    · rw [hK j, if_neg (fun h => absurd h.1 (not_lt.mpr hj))]

/-- Witness for C3 at a concrete input: two bars, periods 1/2/1,
displacement 1. -/
theorem C3_witness :
    1 ≤ 1 ∧ 1 ≤ 2 ∧
    (((calcCloud [{ high := 10, low := 5, close := 7 },
        { high := 12, low := 6, close := 8 }] 1 2 1 1).getD 0 default).tenkan =
      specMidpoint [{ high := 10, low := 5, close := 7 },
        { high := 12, low := 6, close := 8 }] 0 1) ∧
    (((calcCloud [{ high := 10, low := 5, close := 7 },
        { high := 12, low := 6, close := 8 }] 1 2 1 1).getD 0 default).kijun.isSome = true ↔
      2 - 1 ≤ 0) :=
  ⟨by decide, by decide,
    ((C3_tenkan_kijun_window [{ high := 10, low := 5, close := 7 },
        { high := 12, low := 6, close := 8 }] 1 2 1 1
      (by decide) (by decide) (by decide) (by decide)).1 0 (by decide)).1.2 (by decide),
    ((C3_tenkan_kijun_window [{ high := 10, low := 5, close := 7 },
        { high := 12, low := 6, close := 8 }] 1 2 1 1
      (by decide) (by decide) (by decide) (by decide)).1 0 (by decide)).2.1⟩

/-- C4: for valid parameters and every input index `i < len(bars)`,
`spanA` (`senkou1`) at output index `i + displacement` is `some` of the
average of `tenkan[i]` and `kijun[i]` exactly when both are present, and
`none` (never written) when either is absent. -/
theorem C4_spanA_projection (dataList : List KLineData) (tp kp sp d : ℕ)
    (htp : 1 ≤ tp) (hkp : 1 ≤ kp) (hsp : 1 ≤ sp) (hd : 1 ≤ d)
    (i : ℕ) (hi : i < dataList.length) :
    ((calcCloud dataList tp kp sp d).getD (i + d) default).senkou1 =
      match ((calcCloud dataList tp kp sp d).getD i default).tenkan,
            ((calcCloud dataList tp kp sp d).getD i default).kijun with
      | some t, some k => some ((t + k) / 2)
      | _, _ => none := by
  have hS := calcAux_senkou1 dataList tp kp sp d dataList.length le_rfl (i + d)
  have hT := calcAux_tenkan dataList tp kp sp d dataList.length le_rfl i
  have hK := calcAux_kijun dataList tp kp sp d dataList.length le_rfl i
  show ((calcAux dataList tp kp sp d dataList.length).result.getD (i + d) default).senkou1 = _
  rw [hS]
  show _ = (match ((calcAux dataList tp kp sp d dataList.length).result.getD i default).tenkan,
      ((calcAux dataList tp kp sp d dataList.length).result.getD i default).kijun with
    | some t, some k => some ((t + k) / 2)
    | _, _ => none)
  rw [hT, hK, Nat.add_sub_cancel]
  by_cases h1 : tp - 1 ≤ i <;> by_cases h2 : kp - 1 ≤ i <;>
    simp [h1, h2, hi, Nat.le_add_left]

/-- Witness for C4 at a concrete input. -/
theorem C4_witness :
    1 ≤ 1 ∧ 0 < 1 ∧
    ((calcCloud [{ high := 10, low := 5, close := 7 }] 1 1 1 2).getD (0 + 2)
        default).senkou1 =
      match ((calcCloud [{ high := 10, low := 5, close := 7 }] 1 1 1 2).getD 0
          default).tenkan,
        ((calcCloud [{ high := 10, low := 5, close := 7 }] 1 1 1 2).getD 0
          default).kijun with
      | some t, some k => some ((t + k) / 2)
      | _, _ => none :=
  ⟨by decide, by decide,
    C4_spanA_projection [{ high := 10, low := 5, close := 7 }] 1 1 1 2
      (by decide) (by decide) (by decide) (by decide) 0 (by decide)⟩

/-- C5: for valid parameters, `chikou` at output index `i - displacement`
equals `bars[i].close` for every input index `i ≥ displacement`, and is
absent at every output index `j` with `j + displacement ≥ len(bars)`. -/
theorem C5_chikou_lagging (dataList : List KLineData) (tp kp sp d : ℕ)
    (htp : 1 ≤ tp) (hkp : 1 ≤ kp) (hsp : 1 ≤ sp) (hd : 1 ≤ d) :
    (∀ i, d ≤ i → i < dataList.length →
      ((calcCloud dataList tp kp sp d).getD (i - d) default).chikou =
        some ((dataList.getD i default).close)) ∧
    (∀ j, dataList.length ≤ j + d →
      ((calcCloud dataList tp kp sp d).getD j default).chikou = none) := by
  have hC : ∀ j, ((calcCloud dataList tp kp sp d).getD j default).chikou =
      if j + d < dataList.length then some ((dataList.getD (j + d) default).close)
      else none :=
    calcAux_chikou dataList tp kp sp d dataList.length le_rfl
  constructor
  · intro i hdi hi
    have hid : i - d + d = i := by omega
    rw [hC (i - d), hid, if_pos hi]
  · intro j hj
    rw [hC j, if_neg (by omega)]

/-- Witness for C5 at a concrete input. -/
theorem C5_witness :
    1 ≤ 1 ∧
    ((calcCloud [{ high := 10, low := 5, close := 7 },
        { high := 12, low := 6, close := 8 }] 1 1 1 1).getD (1 - 1) default).chikou =
      some (([{ high := 10, low := 5, close := 7 },
        { high := 12, low := 6, close := 8 }] : List KLineData).getD 1 default).close ∧
    ((calcCloud [{ high := 10, low := 5, close := 7 },
        { high := 12, low := 6, close := 8 }] 1 1 1 1).getD 1 default).chikou = none :=
  ⟨by decide,
    (C5_chikou_lagging [{ high := 10, low := 5, close := 7 },
        { high := 12, low := 6, close := 8 }] 1 1 1 1
      (by decide) (by decide) (by decide) (by decide)).1 1 (by decide) (by decide),
    (C5_chikou_lagging [{ high := 10, low := 5, close := 7 },
        { high := 12, low := 6, close := 8 }] 1 1 1 1
      (by decide) (by decide) (by decide) (by decide)).2 1 (by decide)⟩

/-- C6: the calculator's output has length exactly
`len(bars) + displacement`, every index in range holds a record (never a
missing slot), and the empty input yields an all-absent sequence of length
`displacement`. -/
theorem C6_output_shape (dataList : List KLineData) (tp kp sp d : ℕ) :
    (calcCloud dataList tp kp sp d).length = dataList.length + d ∧
    (∀ j, j < dataList.length + d →
      ∃ r : IchimokuCloud, (calcCloud dataList tp kp sp d)[j]? = some r) ∧
    calcCloud [] tp kp sp d = List.replicate d ({} : IchimokuCloud) := by
  have hlen : (calcCloud dataList tp kp sp d).length = dataList.length + d :=
    calcAux_length dataList tp kp sp d dataList.length
  refine ⟨hlen, ?_, ?_⟩
  · intro j hj
    exact ⟨_, List.getElem?_eq_getElem (hlen ▸ hj)⟩
  · simp [calcCloud, calcRun]

/-- Witness for C6 at a concrete input. -/
theorem C6_witness :
    0 < 1 + 2 ∧
    ∃ r : IchimokuCloud, (calcCloud [{ high := 10, low := 5, close := 7 }] 9 26 52 2)[0]? =
      some r :=
  ⟨by decide,
    (C6_output_shape [{ high := 10, low := 5, close := 7 }] 9 26 52 2).2.1 0 (by decide)⟩

/-- C9: the calculator never mutates its input: after the whole run the
carried input sequence is the original one — same length, and identical
`high`/`low`/`close` at every index. -/
theorem C9_input_immutable (dataList : List KLineData) (tp kp sp d : ℕ) :
    (calcRun dataList tp kp sp d).dataList = dataList ∧
    (calcRun dataList tp kp sp d).dataList.length = dataList.length ∧
    ∀ j, ((calcRun dataList tp kp sp d).dataList.getD j default).high =
        (dataList.getD j default).high ∧
      ((calcRun dataList tp kp sp d).dataList.getD j default).low =
        (dataList.getD j default).low ∧
      ((calcRun dataList tp kp sp d).dataList.getD j default).close =
        (dataList.getD j default).close := by
  have h : (calcRun dataList tp kp sp d).dataList = dataList :=
    calcAux_dataList dataList tp kp sp d dataList.length
  refine ⟨h, by rw [h], fun j => ?_⟩
  rw [h]
  exact ⟨rfl, rfl, rfl⟩

/-! ## Lemmas: the renderer's scan step -/

theorem drawStep_absent (result : List IchimokuCloud) (xAxis : ℕ → ℚ) (yAxis : ℚ → ℚ)
    (st : DrawState) (i : ℕ)
    (h : (result.get? i).bind IchimokuCloud.senkou1 = none ∨
      (result.get? i).bind IchimokuCloud.senkou2 = none) :
    drawStep result xAxis yAxis st i = st := by
  unfold drawStep
  rcases h with h | h
  · rw [h]
  · rw [h]
    cases hs : (result.get? i).bind IchimokuCloud.senkou1 <;> rfl

theorem drawStep_present_extend (result : List IchimokuCloud) (xAxis : ℕ → ℚ) (yAxis : ℚ → ℚ)
    (st : DrawState) (i : ℕ) (s1 s2 : ℚ)
    (h1 : (result.get? i).bind IchimokuCloud.senkou1 = some s1)
    (h2 : (result.get? i).bind IchimokuCloud.senkou2 = some s2)
    (hcond : ¬(st.currentIsBullish ≠ none ∧ st.currentIsBullish ≠ some (isBullishOf s1 s2))) :
    drawStep result xAxis yAxis st i =
      { st with
        points1 := st.points1 ++ [{ x := xAxis i, y := yAxis s1 }]
        points2 := st.points2 ++ [{ x := xAxis i, y := yAxis s2 }]
        currentIsBullish := some (isBullishOf s1 s2) } := by
  unfold drawStep
  rw [h1, h2]
  dsimp only
  rw [if_neg hcond]

theorem drawStep_present_flush (result : List IchimokuCloud) (xAxis : ℕ → ℚ) (yAxis : ℚ → ℚ)
    (st : DrawState) (i : ℕ) (s1 s2 : ℚ)
    (h1 : (result.get? i).bind IchimokuCloud.senkou1 = some s1)
    (h2 : (result.get? i).bind IchimokuCloud.senkou2 = some s2)
    (hcond : st.currentIsBullish ≠ none ∧ st.currentIsBullish ≠ some (isBullishOf s1 s2)) :
    drawStep result xAxis yAxis st i =
      { points1 :=
          (if st.points1.length > 0 then [st.points1.getD (st.points1.length - 1) default]
            else []) ++ [{ x := xAxis i, y := yAxis s1 }]
        points2 :=
          (if st.points2.length > 0 then [st.points2.getD (st.points2.length - 1) default]
            else []) ++ [{ x := xAxis i, y := yAxis s2 }]
        currentIsBullish := some (isBullishOf s1 s2)
        ctx := drawCloudPolygon st.ctx st.points1 st.points2 (colorOf st.currentIsBullish) } := by
  unfold drawStep
  rw [h1, h2]
  dsimp only
  rw [if_pos hcond]

/-! ## The renderer scan invariant -/

theorem presentCount_append_absent (result : List IchimokuCloud) (seen : List ℕ) (i : ℕ)
    (h : presentB result i = false) :
    presentCount result (seen ++ [i]) = presentCount result seen := by
  unfold presentCount
  rw [List.filter_append]
  simp [h]

theorem presentCount_append_present (result : List IchimokuCloud) (seen : List ℕ) (i : ℕ)
    (h : presentB result i = true) :
    presentCount result (seen ++ [i]) = presentCount result seen + 1 := by
  unfold presentCount
  rw [List.filter_append]
  simp [h]

theorem presentXs_append_absent (result : List IchimokuCloud) (xAxis : ℕ → ℚ)
    (seen : List ℕ) (i : ℕ) (h : presentB result i = false) :
    presentXs result xAxis (seen ++ [i]) = presentXs result xAxis seen := by
  unfold presentXs
  rw [List.filter_append]
  simp [h]

theorem presentXs_append_present (result : List IchimokuCloud) (xAxis : ℕ → ℚ)
    (seen : List ℕ) (i : ℕ) (h : presentB result i = true) :
    presentXs result xAxis (seen ++ [i]) = presentXs result xAxis seen ++ [xAxis i] := by
  unfold presentXs
  rw [List.filter_append]
  simp [h]

theorem polyXs_concat (polys : List CloudPoly) (p : CloudPoly) :
    polyXs (polys ++ [p]) = polyXs polys ++ p.points1.map Coordinate.x := by
  unfold polyXs
  rw [List.map_append, List.flatten_append]
  simp

theorem scanInv_init (result : List IchimokuCloud) (xAxis : ℕ → ℚ) :
    ScanInv result xAxis []
      { points1 := [], points2 := [], currentIsBullish := none, ctx := [] } := by
  refine ⟨rfl, fun _ => rfl, ?_, ?_, ?_, fun _ => rfl, ?_, ?_, ?_, ?_, ?_⟩
  · intro h
    simp [presentCount] at h
  · intro h
    exact absurd rfl h
  · intro h
    simp [presentCount] at h
  · simp [presentCount]
  · intro p hp
    simp at hp
  · intro k p q hp _
    simp at hp
  · intro p hp
    simp at hp
  · intro a
    simp [polyXs, presentXs]

theorem chain_concat {α : Type} (R : α → α → Prop) (l : List α) (a : α)
    (hchain : ∀ k p q, l[k]? = some p → l[k + 1]? = some q → R p q)
    (hlast : ∀ p, l.getLast? = some p → R p a) :
    ∀ k p q, (l ++ [a])[k]? = some p → (l ++ [a])[k + 1]? = some q → R p q := by
  intro k p q hp hq
  by_cases hk : k + 1 < l.length
  · rw [List.getElem?_append_left (by omega)] at hp
    rw [List.getElem?_append_left hk] at hq
    exact hchain k p q hp hq
  · by_cases hk2 : k + 1 = l.length
    · rw [List.getElem?_append_left (by omega)] at hp
      rw [List.getElem?_append_right (by omega)] at hq
      have hq' : q = a := by
        have h0 : k + 1 - l.length = 0 := by omega
        rw [h0] at hq
        simpa using hq.symm
      have hp' : l.getLast? = some p := by
        rw [List.getLast?_eq_getElem?]
        have h1 : l.length - 1 = k := by omega
        rw [h1]
        exact hp
      exact hq' ▸ hlast p hp'
    · rw [List.getElem?_append_right (by omega)] at hq
      have h2 : [a][k + 1 - l.length]? = none := by
        rw [List.getElem?_eq_none]
        simp
        omega
      rw [h2] at hq
      exact absurd hq (by simp)

theorem scanInv_extend (result : List IchimokuCloud) (xAxis : ℕ → ℚ) (yAxis : ℚ → ℚ)
    (seen : List ℕ) (st : DrawState) (i : ℕ) (s1 s2 : ℚ)
    (h1 : (result.get? i).bind IchimokuCloud.senkou1 = some s1)
    (h2 : (result.get? i).bind IchimokuCloud.senkou2 = some s2)
    (inv : ScanInv result xAxis seen st) :
    ScanInv result xAxis (seen ++ [i])
      { st with
        points1 := st.points1 ++ [{ x := xAxis i, y := yAxis s1 }]
        points2 := st.points2 ++ [{ x := xAxis i, y := yAxis s2 }]
        currentIsBullish := some (isBullishOf s1 s2) } := by
  have hpb : presentB result i = true := by
    unfold presentB
    rw [h1, h2]
    rfl
  have hc := presentCount_append_present result seen i hpb
  have hx := presentXs_append_present result xAxis seen i hpb
  refine ⟨?_, ?_, ?_, ?_, ?_, ?_, ?_, ?_, ?_, ?_, ?_⟩
  · simp [inv.len_eq]
  · intro h
    simp at h
  · intro _
    simp
  · intro _
    simp
  · intro h
    rw [hc] at h
    have hp1 : 1 ≤ presentCount result seen := by omega
    have hp2 := inv.one_le_of_flag (inv.flag_of_pos hp1)
    simp
    omega
  · intro h
    rw [hc] at h
    exact inv.ctx_nil_of_le_one (by omega)
  · rw [hc]
    have := inv.pts_le_count
    simp
    omega
  · exact inv.poly_shape
  · exact inv.chain
  · intro p hp
    have hl := inv.link p hp
    have hctxne : st.ctx ≠ [] := by
      intro hh
      rw [hh] at hp
      simp at hp
    have hpc2 : 2 ≤ presentCount result seen := by
      by_contra hh
      exact hctxne (inv.ctx_nil_of_le_one (by omega))
    have hP2 : 2 ≤ st.points1.length := inv.two_le_of_two hpc2
    have hne1 : st.points1 ≠ [] := by
      intro hh
      rw [hh] at hP2
      simp at hP2
    have hne2 : st.points2 ≠ [] := by
      intro hh
      have hl2 := inv.len_eq
      rw [hh] at hl2
      simp at hl2
      rw [hl2] at hP2
      simp at hP2
    constructor
    · have hhead : (st.points1 ++ [({ x := xAxis i, y := yAxis s1 } : Coordinate)]).head? =
          st.points1.head? := by
        cases hh : st.points1.head? with
        | none => exact absurd (List.head?_eq_none_iff.mp hh) hne1
        | some v => rw [List.head?_append, hh]; rfl
      show (st.points1 ++ [({ x := xAxis i, y := yAxis s1 } : Coordinate)]).head? = _
      rw [hhead]
      exact hl.1
    · have hhead : (st.points2 ++ [({ x := xAxis i, y := yAxis s2 } : Coordinate)]).head? =
          st.points2.head? := by
        cases hh : st.points2.head? with
        | none => exact absurd (List.head?_eq_none_iff.mp hh) hne2
        | some v => rw [List.head?_append, hh]; rfl
      show (st.points2 ++ [({ x := xAxis i, y := yAxis s2 } : Coordinate)]).head? = _
      rw [hhead]
      exact hl.2
  · intro a
    rw [hx]
    have hcov := inv.coverage a
    simp only [List.map_append, List.mem_append, List.map_cons, List.map_nil,
      List.mem_singleton] at hcov ⊢
    constructor
    · intro h
      rcases h with h | h | h
      · exact Or.inl (hcov.mp (Or.inl h))
      · exact Or.inl (hcov.mp (Or.inr h))
      · exact Or.inr h
    · intro h
      rcases h with h | h
      · rcases hcov.mpr h with h' | h'
        · exact Or.inl h'
        · exact Or.inr (Or.inl h')
      · exact Or.inr (Or.inr h)

theorem scanInv_flush_emit (result : List IchimokuCloud) (xAxis : ℕ → ℚ) (yAxis : ℚ → ℚ)
    (seen : List ℕ) (st : DrawState) (i : ℕ) (s1 s2 : ℚ)
    (h1 : (result.get? i).bind IchimokuCloud.senkou1 = some s1)
    (h2 : (result.get? i).bind IchimokuCloud.senkou2 = some s2)
    (hlen2 : 2 ≤ st.points1.length)
    (inv : ScanInv result xAxis seen st) :
    ScanInv result xAxis (seen ++ [i])
      { points1 := [st.points1.getD (st.points1.length - 1) default] ++
          [{ x := xAxis i, y := yAxis s1 }]
        points2 := [st.points2.getD (st.points2.length - 1) default] ++
          [{ x := xAxis i, y := yAxis s2 }]
        currentIsBullish := some (isBullishOf s1 s2)
        ctx := st.ctx ++
          [{ points1 := st.points1, points2 := st.points2,
             color := colorOf st.currentIsBullish }] } := by
  have hpb : presentB result i = true := by
    unfold presentB
    rw [h1, h2]
    rfl
  have hc := presentCount_append_present result seen i hpb
  have hx := presentXs_append_present result xAxis seen i hpb
  have hpc : 2 ≤ presentCount result seen := le_trans hlen2 inv.pts_le_count
  have hlen2' : 2 ≤ st.points2.length := inv.len_eq ▸ hlen2
  have hlast1 : st.points1.getLast? =
      some (st.points1.getD (st.points1.length - 1) default) := by
    rw [List.getLast?_eq_getElem?, List.getElem?_eq_getElem (by omega),
      List.getD_eq_getElem _ _ (by omega)]
  have hlast2 : st.points2.getLast? =
      some (st.points2.getD (st.points2.length - 1) default) := by
    rw [List.getLast?_eq_getElem?, List.getElem?_eq_getElem (by omega),
      List.getD_eq_getElem _ _ (by omega)]
  have hmem1 : st.points1.getD (st.points1.length - 1) default ∈ st.points1 := by
    rw [List.getD_eq_getElem _ _ (by omega)]
    exact List.getElem_mem _
  refine ⟨?_, ?_, ?_, ?_, ?_, ?_, ?_, ?_, ?_, ?_, ?_⟩
  · rfl
  · intro h
    simp at h
  · intro _
    simp
  · intro _
    simp
  · intro _
    simp
  · intro h
    rw [hc] at h
    exact absurd hpc (by omega)
  · rw [hc]
    simp
    omega
  · intro p hp
    rcases List.mem_append.mp hp with h | h
    · exact inv.poly_shape p h
    · rw [List.mem_singleton] at h
      subst h
      exact ⟨hlen2, inv.len_eq⟩
  · exact chain_concat _ st.ctx _ inv.chain (fun p hp => inv.link p hp)
  · intro p hp
    rw [List.getLast?_concat] at hp
    injection hp with hp'
    subst hp'
    exact ⟨hlast1.symm, hlast2.symm⟩
  · intro a
    rw [hx, polyXs_concat]
    have hcov := inv.coverage a
    have hmemx : Coordinate.x (st.points1.getD (st.points1.length - 1) default) ∈
        st.points1.map Coordinate.x := List.mem_map_of_mem _ hmem1
    have hlx : a = Coordinate.x (st.points1.getD (st.points1.length - 1) default) →
        a ∈ presentXs result xAxis seen := fun h => hcov.mp (Or.inr (h ▸ hmemx))
    simp only [List.map_append, List.mem_append, List.map_cons, List.map_nil,
      List.mem_singleton] at hcov hlx ⊢
    constructor
    · rintro ((h | h) | h | h)
      · exact Or.inl (hcov.mp (Or.inl h))
      · exact Or.inl (hcov.mp (Or.inr h))
      · exact Or.inl (hlx h)
      · exact Or.inr h
    · rintro (h | h)
      · rcases hcov.mpr h with h' | h'
        · exact Or.inl (Or.inl h')
        · exact Or.inl (Or.inr h')
      · exact Or.inr (Or.inr h)

theorem scanInv_flush_noemit (result : List IchimokuCloud) (xAxis : ℕ → ℚ) (yAxis : ℚ → ℚ)
    (seen : List ℕ) (st : DrawState) (i : ℕ) (s1 s2 : ℚ)
    (h1 : (result.get? i).bind IchimokuCloud.senkou1 = some s1)
    (h2 : (result.get? i).bind IchimokuCloud.senkou2 = some s2)
    (hl1 : st.points1.length = 1)
    (inv : ScanInv result xAxis seen st) :
    ScanInv result xAxis (seen ++ [i])
      { points1 := [st.points1.getD (st.points1.length - 1) default] ++
          [{ x := xAxis i, y := yAxis s1 }]
        points2 := [st.points2.getD (st.points2.length - 1) default] ++
          [{ x := xAxis i, y := yAxis s2 }]
        currentIsBullish := some (isBullishOf s1 s2)
        ctx := st.ctx } := by
  have hpb : presentB result i = true := by
    unfold presentB
    rw [h1, h2]
    rfl
  have hc := presentCount_append_present result seen i hpb
  have hx := presentXs_append_present result xAxis seen i hpb
  have hpc1 : 1 ≤ presentCount result seen := by
    have := inv.pts_le_count
    omega
  have hpcle : presentCount result seen ≤ 1 := by
    by_contra hh
    have := inv.two_le_of_two (by omega)
    omega
  have hctx : st.ctx = [] := inv.ctx_nil_of_le_one hpcle
  have hl2 : st.points2.length = 1 := by
    have := inv.len_eq
    omega
  obtain ⟨v, hv⟩ := List.length_eq_one.mp hl1
  obtain ⟨w, hw⟩ := List.length_eq_one.mp hl2
  refine ⟨?_, ?_, ?_, ?_, ?_, ?_, ?_, ?_, ?_, ?_, ?_⟩
  · rfl
  · intro h
    simp at h
  · intro _
    simp
  · intro _
    simp
  · intro _
    simp
  · intro _
    exact hctx
  · rw [hc]
    simp
    omega
  · exact inv.poly_shape
  · exact inv.chain
  · intro p hp
    rw [hctx] at hp
    simp at hp
  · intro a
    rw [hx, hctx]
    have hcov := inv.coverage a
    rw [hctx, hv] at hcov
    have hgd1 : st.points1.getD (st.points1.length - 1) default = v := by
      rw [hv]
      simp
    have hgd2 : st.points2.getD (st.points2.length - 1) default = w := by
      rw [hw]
      simp
    simp only [hgd1, hgd2]
    simp only [polyXs, List.map_nil, List.flatten_nil, List.not_mem_nil, false_or,
      List.map_append, List.map_cons, List.map_nil, List.mem_singleton,
      List.mem_append, List.mem_cons, List.not_mem_nil, or_false] at hcov ⊢
    tauto

theorem scanInv_step (result : List IchimokuCloud) (xAxis : ℕ → ℚ) (yAxis : ℚ → ℚ)
    (seen : List ℕ) (st : DrawState) (i : ℕ)
    (inv : ScanInv result xAxis seen st) :
    ScanInv result xAxis (seen ++ [i]) (drawStep result xAxis yAxis st i) := by
  cases h1 : (result.get? i).bind IchimokuCloud.senkou1 with
  | none =>
    rw [drawStep_absent _ _ _ _ _ (Or.inl h1)]
    have hpb : presentB result i = false := by
      unfold presentB
      rw [h1]
      rfl
    refine ⟨inv.len_eq, inv.init_of_none, ?_, inv.one_le_of_flag, ?_, ?_, ?_,
      inv.poly_shape, inv.chain, inv.link, ?_⟩
    · rw [presentCount_append_absent _ _ _ hpb]
      exact inv.flag_of_pos
    · rw [presentCount_append_absent _ _ _ hpb]
      exact inv.two_le_of_two
    · rw [presentCount_append_absent _ _ _ hpb]
      exact inv.ctx_nil_of_le_one
    · rw [presentCount_append_absent _ _ _ hpb]
      exact inv.pts_le_count
    · intro a
      rw [presentXs_append_absent _ _ _ _ hpb]
      exact inv.coverage a
  | some s1 =>
    cases h2 : (result.get? i).bind IchimokuCloud.senkou2 with
    | none =>
      rw [drawStep_absent _ _ _ _ _ (Or.inr h2)]
      have hpb : presentB result i = false := by
        unfold presentB
        rw [h1, h2]
        rfl
      refine ⟨inv.len_eq, inv.init_of_none, ?_, inv.one_le_of_flag, ?_, ?_, ?_,
        inv.poly_shape, inv.chain, inv.link, ?_⟩
      · rw [presentCount_append_absent _ _ _ hpb]
        exact inv.flag_of_pos
      · rw [presentCount_append_absent _ _ _ hpb]
        exact inv.two_le_of_two
      · rw [presentCount_append_absent _ _ _ hpb]
        exact inv.ctx_nil_of_le_one
      · rw [presentCount_append_absent _ _ _ hpb]
        exact inv.pts_le_count
      · intro a
        rw [presentXs_append_absent _ _ _ _ hpb]
        exact inv.coverage a
    | some s2 =>
      by_cases hcond : st.currentIsBullish ≠ none ∧
          st.currentIsBullish ≠ some (isBullishOf s1 s2)
      · have hflag := hcond.1
        have hlen1 : 1 ≤ st.points1.length := inv.one_le_of_flag hflag
        have hlen1' : 1 ≤ st.points2.length := inv.len_eq ▸ hlen1
        rw [drawStep_present_flush _ _ _ _ _ _ _ h1 h2 hcond,
          if_pos (show st.points1.length > 0 by omega),
          if_pos (show st.points2.length > 0 by omega)]
        by_cases hemit : 2 ≤ st.points1.length
        · have hdcp : drawCloudPolygon st.ctx st.points1 st.points2
              (colorOf st.currentIsBullish) =
              st.ctx ++ [({ points1 := st.points1, points2 := st.points2, color := colorOf st.currentIsBullish } : CloudPoly)] := by
            unfold drawCloudPolygon
            rw [if_neg (by omega)]
          rw [hdcp]
          exact scanInv_flush_emit result xAxis yAxis seen st i s1 s2 h1 h2 hemit inv
        · have hl1 : st.points1.length = 1 := by omega
          have hdcp : drawCloudPolygon st.ctx st.points1 st.points2
              (colorOf st.currentIsBullish) = st.ctx := by
            unfold drawCloudPolygon
            rw [if_pos (by omega)]
          rw [hdcp]
          exact scanInv_flush_noemit result xAxis yAxis seen st i s1 s2 h1 h2 hl1 inv
      · rw [drawStep_present_extend _ _ _ _ _ _ _ h1 h2 hcond]
        exact scanInv_extend result xAxis yAxis seen st i s1 s2 h1 h2 inv

theorem scanInv_foldl (result : List IchimokuCloud) (xAxis : ℕ → ℚ) (yAxis : ℚ → ℚ) :
    ∀ (idxs : List ℕ) (seen : List ℕ) (st : DrawState),
      ScanInv result xAxis seen st →
      ScanInv result xAxis (seen ++ idxs) (idxs.foldl (drawStep result xAxis yAxis) st) := by
  intro idxs
  induction idxs with
  | nil =>
    intro seen st inv
    simpa using inv
  | cons b l ih =>
    intro seen st inv
    rw [List.foldl_cons]
    have h := ih (seen ++ [b]) (drawStep result xAxis yAxis st b)
      (scanInv_step result xAxis yAxis seen st b inv)
    rw [List.append_assoc] at h
    simpa using h

theorem scanInv_drawScan (result : List IchimokuCloud) (fromIdx toIdx : ℕ)
    (xAxis : ℕ → ℚ) (yAxis : ℚ → ℚ) :
    ScanInv result xAxis (List.range' fromIdx (toIdx - fromIdx))
      (drawScan result fromIdx toIdx xAxis yAxis) := by
  have h := scanInv_foldl result xAxis yAxis (List.range' fromIdx (toIdx - fromIdx)) []
    { points1 := [], points2 := [], currentIsBullish := none, ctx := [] }
    (scanInv_init result xAxis)
  simpa using h

theorem draw_eq (result : List IchimokuCloud) (fromIdx toIdx : ℕ)
    (xAxis : ℕ → ℚ) (yAxis : ℚ → ℚ) :
    draw result fromIdx toIdx xAxis yAxis =
      if (drawScan result fromIdx toIdx xAxis yAxis).points1.length > 1 ∧
          (drawScan result fromIdx toIdx xAxis yAxis).currentIsBullish ≠ none then
        drawCloudPolygon (drawScan result fromIdx toIdx xAxis yAxis).ctx
          (drawScan result fromIdx toIdx xAxis yAxis).points1
          (drawScan result fromIdx toIdx xAxis yAxis).points2
          (colorOf (drawScan result fromIdx toIdx xAxis yAxis).currentIsBullish)
      else (drawScan result fromIdx toIdx xAxis yAxis).ctx := rfl

/-! ## Renderer claims -/

/-- C8: an index at which `senkou1` or `senkou2` is absent (a gap) leaves
the renderer's scan state completely unchanged — edge lists, bullish flag
and emitted polygons alike; a gap neither closes nor flushes the open
segment. -/
theorem C8_gap_neutral (result : List IchimokuCloud) (xAxis : ℕ → ℚ) (yAxis : ℚ → ℚ)
    (st : DrawState) (i : ℕ)
    (h : (result.get? i).bind IchimokuCloud.senkou1 = none ∨
      (result.get? i).bind IchimokuCloud.senkou2 = none) :
    drawStep result xAxis yAxis st i = st := by
  unfold drawStep
  rcases h with h | h
  · rw [h]
  · rw [h]
    cases hs : (result.get? i).bind IchimokuCloud.senkou1 <;> rfl

/-- Witness for C8 at a concrete input: a gap index inside a scan whose
state already holds an open segment. -/
theorem C8_witness :
    (([{ senkou1 := some 1 }] : List IchimokuCloud).get? 0).bind IchimokuCloud.senkou2 =
      none ∧
    drawStep [{ senkou1 := some 1 }] (fun i => (i : ℚ)) id
      { points1 := [{ x := 0, y := 1 }], points2 := [{ x := 0, y := 2 }],
        currentIsBullish := some true, ctx := [] } 0 =
      { points1 := [{ x := 0, y := 1 }], points2 := [{ x := 0, y := 2 }],
        currentIsBullish := some true, ctx := [] } :=
  ⟨rfl, C8_gap_neutral [{ senkou1 := some 1 }] (fun i => (i : ℚ)) id
    { points1 := [{ x := 0, y := 1 }], points2 := [{ x := 0, y := 2 }],
      currentIsBullish := some true, ctx := [] } 0 (Or.inr rfl)⟩

/-- C10: the two parallel edge lists of the scan state always have equal
length, and every rendered polygon has equal-length edges with at least 2
points each — so `drawCloudPolygon`'s check of `points1.length` alone also
bounds `points2`. -/
theorem C10_parallel_edges (result : List IchimokuCloud) (fromIdx toIdx : ℕ)
    (xAxis : ℕ → ℚ) (yAxis : ℚ → ℚ) :
    (drawScan result fromIdx toIdx xAxis yAxis).points1.length =
      (drawScan result fromIdx toIdx xAxis yAxis).points2.length ∧
    ∀ p ∈ draw result fromIdx toIdx xAxis yAxis,
      p.points1.length = p.points2.length ∧ 2 ≤ p.points1.length ∧
        2 ≤ p.points2.length := by
  have inv := scanInv_drawScan result fromIdx toIdx xAxis yAxis
  refine ⟨inv.len_eq, ?_⟩
  intro p hp
  rw [draw_eq] at hp
  have hctx : ∀ q, q ∈ (drawScan result fromIdx toIdx xAxis yAxis).ctx →
      q.points1.length = q.points2.length ∧ 2 ≤ q.points1.length ∧
        2 ≤ q.points2.length := by
    intro q hq
    obtain ⟨h2, heq⟩ := inv.poly_shape q hq
    exact ⟨heq, h2, heq ▸ h2⟩
  split at hp
  · unfold drawCloudPolygon at hp
    split at hp
    · exact hctx p hp
    · rcases List.mem_append.mp hp with hq | hq
      · exact hctx p hq
      · rw [List.mem_singleton] at hq
        subst hq
        dsimp only
        refine ⟨inv.len_eq, by omega, ?_⟩
        have := inv.len_eq
        omega
  · exact hctx p hp

/-- Witness for C10 at a concrete input. -/
theorem C10_witness :
    cloudPolyA ∈ draw cloudResultW 0 3 (fun i => (i : ℚ)) id ∧
    (cloudPolyA.points1.length = cloudPolyA.points2.length ∧
      2 ≤ cloudPolyA.points1.length ∧ 2 ≤ cloudPolyA.points2.length) :=
  ⟨by decide,
    (C10_parallel_edges cloudResultW 0 3 (fun i => (i : ℚ)) id).2 cloudPolyA (by decide)⟩

/-- C7: at every boundary between two consecutively rendered polygons the
closing point of the prior polygon's edges equals the opening point of the
next polygon's edges, pixel-exactly; and the sign classification
`isBullish = (spanA >= spanB)` counts ties as bullish. -/
theorem C7_boundary_continuity (result : List IchimokuCloud) (fromIdx toIdx : ℕ)
    (xAxis : ℕ → ℚ) (yAxis : ℚ → ℚ) :
    (∀ k p q, (draw result fromIdx toIdx xAxis yAxis)[k]? = some p →
      (draw result fromIdx toIdx xAxis yAxis)[k + 1]? = some q →
      q.points1.head? = p.points1.getLast? ∧ q.points2.head? = p.points2.getLast?) ∧
    (∀ s : ℚ, isBullishOf s s = true) := by
  constructor
  · have inv := scanInv_drawScan result fromIdx toIdx xAxis yAxis
    rw [draw_eq]
    split
    · unfold drawCloudPolygon
      split
      · exact inv.chain
      · exact chain_concat _ _ _ inv.chain (fun p hp => inv.link p hp)
    · exact inv.chain
  · intro s
    simp [isBullishOf]

/-- Witness for C7 at a concrete input: the sign change between index 1
and index 2 of `cloudResultW` produces two polygons sharing the boundary
point at `x = 1`. -/
theorem C7_witness :
    (draw cloudResultW 0 3 (fun i => (i : ℚ)) id)[0]? = some cloudPolyA ∧
    (draw cloudResultW 0 3 (fun i => (i : ℚ)) id)[1]? = some cloudPolyB ∧
    (cloudPolyB.points1.head? = cloudPolyA.points1.getLast? ∧
      cloudPolyB.points2.head? = cloudPolyA.points2.getLast?) :=
  ⟨rfl, rfl,
    (C7_boundary_continuity cloudResultW 0 3 (fun i => (i : ℚ)) id).1 0 cloudPolyA
      cloudPolyB rfl rfl⟩

/-- C2, counterexample: with exactly one present pair in the visible
range, the renderer draws nothing (a single point cannot form a polygon),
so that present index is dropped: the rendered coverage is empty while the
present-index set is `{0}` — the claimed exact equality fails. -/
theorem C2_counterexample :
    draw [{ senkou1 := some 1, senkou2 := some 0 }] 0 1 (fun i => (i : ℚ)) id = [] ∧
    presentIdx [{ senkou1 := some 1, senkou2 := some 0 }] 0 1 = [0] ∧
    ¬ (polyXs (draw [{ senkou1 := some 1, senkou2 := some 0 }] 0 1
          (fun i => (i : ℚ)) id)).toFinset =
        ((presentIdx [{ senkou1 := some 1, senkou2 := some 0 }] 0 1).map
          (fun i => (i : ℚ))).toFinset := by
  refine ⟨rfl, rfl, ?_⟩
  intro h
  have h0 : (0 : ℚ) ∈ ((presentIdx [{ senkou1 := some 1, senkou2 := some 0 }] 0 1).map
      (fun i => (i : ℚ))).toFinset := by decide
  rw [← h] at h0
  exact absurd h0 (by decide)

/-- C2 (amended): whenever the visible range does not contain exactly one
present pair, the x-pixels covered by the rendered polygons are exactly
the x-pixels of the present indices of the range (no present pair dropped,
no absent pair rendered); with exactly one present pair nothing is
rendered and that lone pair is dropped. -/
theorem C2_coverage (result : List IchimokuCloud) (fromIdx toIdx : ℕ)
    (xAxis : ℕ → ℚ) (yAxis : ℚ → ℚ)
    (h : (presentIdx result fromIdx toIdx).length ≠ 1) :
    (polyXs (draw result fromIdx toIdx xAxis yAxis)).toFinset =
      ((presentIdx result fromIdx toIdx).map xAxis).toFinset := by
  have inv := scanInv_drawScan result fromIdx toIdx xAxis yAxis
  have hpc : (presentIdx result fromIdx toIdx).length =
      presentCount result (List.range' fromIdx (toIdx - fromIdx)) := rfl
  have hpx : presentXs result xAxis (List.range' fromIdx (toIdx - fromIdx)) =
      (presentIdx result fromIdx toIdx).map xAxis := rfl
  apply Finset.ext
  intro a
  rw [List.mem_toFinset, List.mem_toFinset, ← hpx]
  rcases Nat.lt_or_ge (presentCount result (List.range' fromIdx (toIdx - fromIdx))) 1
    with hpc0 | hpc1
  · have hflag : (drawScan result fromIdx toIdx xAxis yAxis).currentIsBullish = none := by
      by_contra hh
      have h1 := inv.one_le_of_flag hh
      have h2 := inv.pts_le_count
      omega
    have hinit := inv.init_of_none hflag
    have hdraw : draw result fromIdx toIdx xAxis yAxis =
        (drawScan result fromIdx toIdx xAxis yAxis).ctx := by
      rw [draw_eq, if_neg (fun hc => hc.2 hflag)]
    have hnil : (List.range' fromIdx (toIdx - fromIdx)).filter (presentB result) = [] := by
      apply List.length_eq_zero.mp
      unfold presentCount at hpc0
      omega
    rw [hdraw, hinit]
    unfold presentXs
    rw [hnil]
    simp [polyXs]
  · have hpc2 : 2 ≤ presentCount result (List.range' fromIdx (toIdx - fromIdx)) := by
      rw [hpc] at h
      omega
    have hlen2 := inv.two_le_of_two hpc2
    have hflag := inv.flag_of_pos (le_trans one_le_two hpc2)
    have hdraw : draw result fromIdx toIdx xAxis yAxis =
        drawCloudPolygon (drawScan result fromIdx toIdx xAxis yAxis).ctx
          (drawScan result fromIdx toIdx xAxis yAxis).points1
          (drawScan result fromIdx toIdx xAxis yAxis).points2
          (colorOf (drawScan result fromIdx toIdx xAxis yAxis).currentIsBullish) := by
      rw [draw_eq, if_pos ⟨by omega, hflag⟩]
    rw [hdraw]
    unfold drawCloudPolygon
    rw [if_neg (by omega), polyXs_concat]
    have hcov := inv.coverage a
    rw [List.mem_append]
    exact hcov

/-- Witness for C2 (amended) at a concrete input with two present pairs. -/
theorem C2_witness :
    (presentIdx [({ senkou1 := some 1, senkou2 := some 0 } : IchimokuCloud),
        { senkou1 := some 1, senkou2 := some 0 }] 0 2).length ≠ 1 ∧
    (polyXs (draw [({ senkou1 := some 1, senkou2 := some 0 } : IchimokuCloud),
        { senkou1 := some 1, senkou2 := some 0 }] 0 2 (fun i => (i : ℚ)) id)).toFinset =
      ((presentIdx [({ senkou1 := some 1, senkou2 := some 0 } : IchimokuCloud),
        { senkou1 := some 1, senkou2 := some 0 }] 0 2).map (fun i => (i : ℚ))).toFinset :=
  ⟨by decide,
    C2_coverage [({ senkou1 := some 1, senkou2 := some 0 } : IchimokuCloud),
      { senkou1 := some 1, senkou2 := some 0 }] 0 2 (fun i => (i : ℚ)) id (by decide)⟩

end Ichimoku
